import Mathlib

/-!
Shallow embedding of `src/main.py` of the zoom-webinar-auto-registration
service: OAuth token acquisition (`get_zoom_access_token`), the generic
cursor-paginated fetcher (`_fetch_all_from_zoom`), the per-contact relay
(`send_to_ghl_webhook`), the registration endpoint (`register_for_webinar`)
and the post-webinar attendee-processing endpoint
(`process_webinar_attendees`).

Network effects are modelled with explicit environments: an upstream
response (or transport failure) is an input, the sequence of page responses
a paginated endpoint would serve is an input list, and per-relay delivery
outcomes are an oracle `Nat → Bool`.  Python `dict[key]` access becomes an
`Except KeyError` computation, `dict.get(key)` becomes `Option`.
-/

/-- A Python `KeyError` carrying the missing key, raised by `d[k]` access. -/
structure KeyError where
  key : String
deriving DecidableEq

/-- A FastAPI `HTTPException`: status code plus detail string. -/
structure HTTPError where
  status : Nat
  detail : String
deriving DecidableEq

/-- `requests.Response.raise_for_status` raises exactly for 4xx/5xx codes. -/
def raiseForStatusFails (status : Nat) : Bool :=
  decide (400 ≤ status ∧ status < 600)

/-- Result of one outbound `requests` call: a response, or a
`requests.exceptions.RequestException` (transport failure). -/
inductive TransportResult (α : Type) where
  | ok (resp : α)
  | exn
deriving DecidableEq

/-- Body and status of the Zoom OAuth token response; `access_token` is read
with `.get`, so it may be absent. -/
structure TokenHttpResponse where
  status : Nat
  access_token : Option String
deriving DecidableEq

/-- `get_zoom_access_token` (src/main.py:61-83): one credential-exchange
call; transport failure or non-2xx raises HTTP 500, otherwise the function
returns `token_data.get("access_token")` — possibly `None`. -/
def get_zoom_access_token (r : TransportResult TokenHttpResponse) :
    Except HTTPError (Option String) :=
  match r with
  | .exn => .error ⟨500, "Could not authenticate with Zoom."⟩
  | .ok resp =>
    if raiseForStatusFails resp.status then
      .error ⟨500, "Could not authenticate with Zoom."⟩
    else
      .ok resp.access_token

/-- A raw registrant record as the Zoom registrants endpoint returns it;
each field is read from a dict, so each may be absent. -/
structure RegRecord where
  email : Option String
  first_name : Option String
  last_name : Option String
deriving DecidableEq

/-- A raw participant record; identity lives under `user_email`. -/
structure PartRecord where
  user_email : Option String
deriving DecidableEq

/-- The payload `process_webinar_attendees` posts to the GHL webhook
(src/main.py:239-244). -/
structure ContactPayload where
  first_name : Option String
  last_name : Option String
  email : Option String
  attended : Nat
deriving DecidableEq

/-- The log line `send_to_ghl_webhook` emits: success info or failure
error, both naming the contact's email. -/
inductive RelayLog where
  | sent (email : Option String) (attended : Nat)
  | failed (email : Option String)
deriving DecidableEq

/-- `send_to_ghl_webhook` (src/main.py:131-138): posts one contact; a
`RequestException` (transport failure or, via `raise_for_status`, non-2xx)
is caught and logged, so the caller never sees a failure.  `deliverOk` is
the environment's outcome for this call. -/
def send_to_ghl_webhook (deliverOk : Bool) (c : ContactPayload) : RelayLog :=
  if deliverOk then .sent c.email c.attended else .failed c.email

/-- Python `str.lower()`, modelled characterwise (ASCII case mapping,
which covers the email strings this service compares). -/
def pyLower (s : String) : String := ⟨s.data.map Char.toLower⟩

/-- The set comprehension `{p["user_email"].lower() for p in participants}`
(src/main.py:224): `p["user_email"]` raises `KeyError` when absent. -/
def participant_email_set : List PartRecord → Except KeyError (List String)
  | [] => .ok []
  | p :: rest =>
    match p.user_email with
    | none => .error ⟨"user_email"⟩
    | some e =>
      match participant_email_set rest with
      | .error k => .error k
      | .ok tail => .ok (pyLower e :: tail)

/-- The per-registrant loop of `process_webinar_attendees`
(src/main.py:230-246): `registrant["email"]` raises `KeyError` when absent;
attendance is membership of the lowercased email in the participant set;
the payload carries `registrant.get(...)` values verbatim; the relay call's
outcome (index `i` of the delivery oracle) is swallowed.  Returns
`(processed_count, attended_count, payloads, logs)`. -/
def processLoop (emails : List String) (deliver : Nat → Bool) :
    Nat → List RegRecord →
    Except KeyError (Nat × Nat × List ContactPayload × List RelayLog)
  | _, [] => .ok (0, 0, [], [])
  | i, r :: rest =>
    match r.email with
    | none => .error ⟨"email"⟩
    | some e =>
      let att : Nat := if pyLower e ∈ emails then 1 else 0
      let payload : ContactPayload :=
        { first_name := r.first_name, last_name := r.last_name,
          email := r.email, attended := att }
      let lg := send_to_ghl_webhook (deliver i) payload
      match processLoop emails deliver (i + 1) rest with
      | .error k => .error k
      | .ok (p, a, sent, logs) => .ok (p + 1, a + att, payload :: sent, lg :: logs)

/-- Return value of the processing endpoint: the JSON body (`message`, and
`summary` only on the full path — the empty-roster return at
src/main.py:220 has no summary key), plus the run's observable counts,
relayed payloads and relay logs. -/
structure ProcessOutput where
  message : String
  summary : Option String
  processed_count : Nat
  attended_count : Nat
  relayed : List ContactPayload
  relayLogs : List RelayLog
deriving DecidableEq

/-- The reconciliation-and-relay part of `process_webinar_attendees`
(src/main.py:218-252), after both rosters are fetched: empty registrant
roster short-circuits (before the participant set is built); otherwise
build the lowercased participant-email set, classify and relay every
registrant, and return the summary string. -/
def process_webinar_attendees (registrants : List RegRecord)
    (participants : List PartRecord) (deliver : Nat → Bool) :
    Except KeyError ProcessOutput :=
  if registrants = [] then
    .ok { message := "No registrants found. Nothing to process.",
          summary := none, processed_count := 0, attended_count := 0,
          relayed := [], relayLogs := [] }
  else
    match participant_email_set participants with
    | .error k => .error k
    | .ok emails =>
      match processLoop emails deliver 0 registrants with
      | .error k => .error k
      | .ok (p, a, sent, logs) =>
        .ok { message := "Processing complete.",
              summary := some ("Processed " ++ toString p ++
                " registrants. Attended: " ++ toString a ++
                ". Not Attended: " ++ toString (p - a) ++ "."),
              processed_count := p, attended_count := a,
              relayed := sent, relayLogs := logs }

/-- Specification-side view of the lowercased participant-email set, for
rosters whose records all carry `user_email`. -/
def lowerEmails (participants : List PartRecord) : List String :=
  participants.map (fun p => pyLower (p.user_email.getD ""))

/-- Specification-side view of one classified registrant payload. -/
def classify (emails : List String) (r : RegRecord) : ContactPayload :=
  { first_name := r.first_name, last_name := r.last_name, email := r.email,
    attended := if pyLower (r.email.getD "") ∈ emails then 1 else 0 }

/-- Specification-side view of the relay logs the loop produces. -/
def expectedLogs (emails : List String) (deliver : Nat → Bool) :
    Nat → List RegRecord → List RelayLog
  | _, [] => []
  | i, r :: rest =>
    send_to_ghl_webhook (deliver i) (classify emails r) ::
      expectedLogs emails deliver (i + 1) rest

/-- Attended total the loop accumulates. -/
def countAttended (emails : List String) (regs : List RegRecord) : Nat :=
  (regs.map (fun r => if pyLower (r.email.getD "") ∈ emails then 1 else 0)).sum

/-- One page body the Zoom endpoint serves: the named array field is read
with `data.get(data_key, [])` so it may be absent, and the continuation
cursor with `data.get("next_page_token")`. -/
structure Page (α : Type) where
  records : Option (List α)
  next_page_token : Option String
deriving DecidableEq

/-- One response of the paginated endpoint: a page, or a
`RequestException` (transport failure, or non-2xx via `raise_for_status`). -/
inductive FetchResponse (α : Type) where
  | success (page : Page α)
  | failure
deriving DecidableEq

/-- One GET request the drain loop issues: endpoint URL, Authorization
header, `page_size` param and the optional `next_page_token` param. -/
structure IssuedRequest where
  endpoint : String
  auth : String
  page_size : Nat
  next_page_token : Option String
deriving DecidableEq

/-- Outcome of the drain: all records, a fatal HTTP-502-mapped error naming
the endpoint (logged) and the data key (exception detail), or exhaustion of
the modelled response script (an artifact of finitising `while True`). -/
inductive DrainOutcome (α : Type) where
  | ok (results : List α)
  | fetchError (endpoint : String) (data_key : String)
  | outOfScript
deriving DecidableEq

/-- The `while True` drain loop of `_fetch_all_from_zoom`
(src/main.py:86-109), run against a script of successive responses.  The
current `next_page_token` param (absent on the first request) is `tok`.
Each iteration issues a request, appends `data.get(data_key, [])`, and
continues exactly when the response's `next_page_token` is truthy
(present and non-empty); a `RequestException` anywhere aborts the whole
drain with no partial result.  Also returns the requests issued. -/
def fetchLoop (endpoint auth data_key : String) :
    Option String → List (FetchResponse α) →
    DrainOutcome α × List IssuedRequest
  | tok, [] => (.outOfScript, [⟨endpoint, auth, 300, tok⟩])
  | tok, .failure :: _ => (.fetchError endpoint data_key, [⟨endpoint, auth, 300, tok⟩])
  | tok, .success page :: rest =>
    let req : IssuedRequest := ⟨endpoint, auth, 300, tok⟩
    let results := page.records.getD []
    match page.next_page_token with
    | none => (.ok results, [req])
    | some t =>
      if t = "" then (.ok results, [req])
      else
        match fetchLoop endpoint auth data_key (some t) rest with
        | (.ok more, reqs) => (.ok (results ++ more), req :: reqs)
        | (.fetchError e k, reqs) => (.fetchError e k, req :: reqs)
        | (.outOfScript, reqs) => (.outOfScript, req :: reqs)

/-- `_fetch_all_from_zoom` (src/main.py:86-109): start the drain with
`params = {"page_size": 300}` and no cursor. -/
def _fetch_all_from_zoom (endpoint auth data_key : String)
    (script : List (FetchResponse α)) : DrainOutcome α × List IssuedRequest :=
  fetchLoop endpoint auth data_key none script

/-- URL of the registrants endpoint (src/main.py:114). -/
def registrantsUrl (webinar_id : String) : String :=
  "https://api.zoom.us/v2/webinars/" ++ webinar_id ++ "/registrants"

/-- URL of the past-webinar participants endpoint (src/main.py:123). -/
def participantsUrl (webinar_id : String) : String :=
  "https://api.zoom.us/v2/past_webinars/" ++ webinar_id ++ "/participants"

/-- The `Authorization` header value `f"Bearer {access_token}"`; a Python
f-string renders `None` as the literal text `None`. -/
def bearerHeader (token : Option String) : String :=
  "Bearer " ++ (match token with | some t => t | none => "None")

/-- `get_all_webinar_registrants` (src/main.py:111-118). -/
def get_all_webinar_registrants (webinar_id : String) (token : Option String)
    (script : List (FetchResponse RegRecord)) :
    DrainOutcome RegRecord × List IssuedRequest :=
  _fetch_all_from_zoom (registrantsUrl webinar_id) (bearerHeader token)
    "registrants" script

/-- `get_all_webinar_participants` (src/main.py:120-127). -/
def get_all_webinar_participants (webinar_id : String) (token : Option String)
    (script : List (FetchResponse PartRecord)) :
    DrainOutcome PartRecord × List IssuedRequest :=
  _fetch_all_from_zoom (participantsUrl webinar_id) (bearerHeader token)
    "participants" script

/-- Outcome of the whole `/process-attendees` request: a JSON response, an
`HTTPException`, an uncaught `KeyError` (crashes the request), or script
exhaustion (model artifact). -/
inductive PipelineResult where
  | ok (out : ProcessOutput)
  | httpError (e : HTTPError)
  | keyError (k : KeyError)
  | incomplete
deriving DecidableEq

/-- The `/process-attendees` endpoint `process_webinar_attendees`
(src/main.py:203-252) end to end: acquire a token (500 on failure, but a
2xx body without `access_token` yields `None` unchecked), drain the
registrants then the participants endpoint (502 on drain failure), then
reconcile and relay.  Also returns all Zoom requests issued. -/
def process_attendees_endpoint (webinar_id : String)
    (tokenRes : TransportResult TokenHttpResponse)
    (regScript : List (FetchResponse RegRecord))
    (partScript : List (FetchResponse PartRecord))
    (deliver : Nat → Bool) : PipelineResult × List IssuedRequest :=
  match get_zoom_access_token tokenRes with
  | .error e => (.httpError e, [])
  | .ok token =>
    match get_all_webinar_registrants webinar_id token regScript with
    | (.fetchError _ k, reqs1) =>
      (.httpError ⟨502, "Failed to fetch " ++ k ++ " from Zoom."⟩, reqs1)
    | (.outOfScript, reqs1) => (.incomplete, reqs1)
    | (.ok registrants, reqs1) =>
      match get_all_webinar_participants webinar_id token partScript with
      | (.fetchError _ k, reqs2) =>
        (.httpError ⟨502, "Failed to fetch " ++ k ++ " from Zoom."⟩, reqs1 ++ reqs2)
      | (.outOfScript, reqs2) => (.incomplete, reqs1 ++ reqs2)
      | (.ok participants, reqs2) =>
        match process_webinar_attendees registrants participants deliver with
        | .error k => (.keyError k, reqs1 ++ reqs2)
        | .ok out => (.ok out, reqs1 ++ reqs2)

/-- The output of the full (non-empty) processing path. -/
def expectedOutput (regs : List RegRecord) (parts : List PartRecord)
    (deliver : Nat → Bool) : ProcessOutput :=
  { message := "Processing complete.",
    summary := some ("Processed " ++ toString regs.length ++
      " registrants. Attended: " ++
      toString (countAttended (lowerEmails parts) regs) ++
      ". Not Attended: " ++
      toString (regs.length - countAttended (lowerEmails parts) regs) ++ "."),
    processed_count := regs.length,
    attended_count := countAttended (lowerEmails parts) regs,
    relayed := regs.map (classify (lowerEmails parts)),
    relayLogs := expectedLogs (lowerEmails parts) deliver 0 regs }

lemma participant_email_set_ok (parts : List PartRecord)
    (hp : ∀ p ∈ parts, p.user_email ≠ none) :
    participant_email_set parts = .ok (lowerEmails parts) := by
  induction parts with
  | nil => rfl
  | cons p rest ih =>
    obtain ⟨e, he⟩ : ∃ e, p.user_email = some e := by
      cases hpe : p.user_email with
      | none => exact absurd hpe (hp p (List.mem_cons_self p rest))
      | some e => exact ⟨e, rfl⟩
    have ih' := ih (fun q hq => hp q (List.mem_cons_of_mem p hq))
    simp [participant_email_set, he, ih', lowerEmails]

lemma participant_email_set_err (parts : List PartRecord)
    (hp : ∃ p ∈ parts, p.user_email = none) :
    ∃ k, participant_email_set parts = .error k := by
  induction parts with
  | nil => obtain ⟨p, hm, _⟩ := hp; exact absurd hm (List.not_mem_nil p)
  | cons p rest ih =>
    cases hpe : p.user_email with
    | none => exact ⟨⟨"user_email"⟩, by simp [participant_email_set, hpe]⟩
    | some e =>
      obtain ⟨q, hm, hq⟩ := hp
      rcases List.mem_cons.mp hm with h | h
      · rw [h] at hq; rw [hpe] at hq; exact absurd hq (by simp)
      · obtain ⟨k, hk⟩ := ih ⟨q, h, hq⟩
        exact ⟨k, by simp [participant_email_set, hpe, hk]⟩

lemma processLoop_ok (emails : List String) (deliver : Nat → Bool)
    (regs : List RegRecord) :
    ∀ i, (∀ r ∈ regs, r.email ≠ none) →
      processLoop emails deliver i regs =
        .ok (regs.length, countAttended emails regs,
             regs.map (classify emails), expectedLogs emails deliver i regs) := by
  induction regs with
  | nil => intro i _; rfl
  | cons r rest ih =>
    intro i h
    obtain ⟨e, he⟩ : ∃ e, r.email = some e := by
      cases hre : r.email with
      | none => exact absurd hre (h r (List.mem_cons_self r rest))
      | some e => exact ⟨e, rfl⟩
    have ih' := ih (i + 1) (fun q hq => h q (List.mem_cons_of_mem r hq))
    simp only [processLoop, he, ih', List.length_cons, List.map_cons,
      expectedLogs, countAttended, List.sum_cons, classify, send_to_ghl_webhook,
      Option.getD_some]
    simp [Nat.add_comm]

lemma processLoop_err (emails : List String) (deliver : Nat → Bool)
    (regs : List RegRecord) :
    ∀ i, (∃ r ∈ regs, r.email = none) →
      ∃ k, processLoop emails deliver i regs = .error k := by
  induction regs with
  | nil =>
    intro i hex
    obtain ⟨r, hm, _⟩ := hex; exact absurd hm (List.not_mem_nil r)
  | cons r rest ih =>
    intro i hex
    cases hre : r.email with
    | none => exact ⟨⟨"email"⟩, by simp [processLoop, hre]⟩
    | some e =>
      obtain ⟨q, hm, hq⟩ := hex
      rcases List.mem_cons.mp hm with h | h
      · rw [h] at hq; rw [hre] at hq; exact absurd hq (by simp)
      · obtain ⟨k, hk⟩ := ih (i + 1) ⟨q, h, hq⟩
        exact ⟨k, by simp [processLoop, hre, hk]⟩

lemma countAttended_le (emails : List String) (regs : List RegRecord) :
    countAttended emails regs ≤ regs.length := by
  induction regs with
  | nil => exact Nat.le_refl 0
  | cons r rest ih =>
    simp only [countAttended, List.map_cons, List.sum_cons, List.length_cons]
    simp only [countAttended] at ih
    split <;> omega

lemma process_ok (regs : List RegRecord) (parts : List PartRecord)
    (deliver : Nat → Bool) (hne : regs ≠ [])
    (hr : ∀ r ∈ regs, r.email ≠ none)
    (hp : ∀ p ∈ parts, p.user_email ≠ none) :
    process_webinar_attendees regs parts deliver =
      .ok (expectedOutput regs parts deliver) := by
  have h1 := participant_email_set_ok parts hp
  have h2 := processLoop_ok (lowerEmails parts) deliver regs 0 hr
  simp only [process_webinar_attendees, if_neg hne, h1, h2, expectedOutput]

/-- C1: in registrant-vs-participant mode, every registrant (of rosters whose
records carry their identity fields) appears exactly once in the relayed
output, in original order, and is classified `attended = 1` iff its
lowercased email is in the set of lowercased participant emails, else `0`;
matching is case-insensitive because both sides are lowercased. -/
theorem C1_registrant_classification (registrants : List RegRecord)
    (participants : List PartRecord) (deliver : Nat → Bool)
    (hr : ∀ r ∈ registrants, r.email ≠ none)
    (hp : ∀ p ∈ participants, p.user_email ≠ none) :
    ∃ out, process_webinar_attendees registrants participants deliver = .ok out ∧
      out.relayed.map (fun c => c.email) = registrants.map (fun r => r.email) ∧
      out.relayed.map (fun c => c.attended) = registrants.map (fun r =>
        if pyLower (r.email.getD "") ∈ lowerEmails participants then 1 else 0) := by
  by_cases hne : registrants = []
  · subst hne
    exact ⟨_, rfl, rfl, rfl⟩
  · refine ⟨_, process_ok registrants participants deliver hne hr hp, ?_, ?_⟩
    · show (registrants.map (classify (lowerEmails participants))).map _ = _
      rw [List.map_map]; rfl
    · show (registrants.map (classify (lowerEmails participants))).map _ = _
      rw [List.map_map]; rfl

/-- C1 witness: the spec's own scenario — `Alice@X.com` matches participant
`alice@x.com` (attended 1), `b@x.com` does not (attended 0). -/
theorem C1_registrant_classification_witness :
    ∃ out, process_webinar_attendees
        [⟨some "Alice@X.com", some "Alice", none⟩,
         ⟨some "b@x.com", some "B", some "Bee"⟩]
        [⟨some "alice@x.com"⟩] (fun _ => true) = .ok out ∧
      out.relayed.map (fun c => c.email) =
        ([⟨some "Alice@X.com", some "Alice", none⟩,
          ⟨some "b@x.com", some "B", some "Bee"⟩] : List RegRecord).map
          (fun r => r.email) ∧
      out.relayed.map (fun c => c.attended) =
        ([⟨some "Alice@X.com", some "Alice", none⟩,
          ⟨some "b@x.com", some "B", some "Bee"⟩] : List RegRecord).map (fun r =>
          if pyLower (r.email.getD "") ∈ lowerEmails [⟨some "alice@x.com"⟩]
          then 1 else 0) :=
  C1_registrant_classification _ _ _ (by decide) (by decide)

/-- C2 counterexample: the relayed payload carries `registrant.get("email")`
verbatim (src/main.py:242), not the lowercased email, so with registrant
`A@X.com` and no participants the single output email is `A@X.com`, which
is not any input registrant's lowercased email (`a@x.com`). -/
theorem C2_verbatim_email_counterexample :
    process_webinar_attendees [⟨some "A@X.com", some "A", none⟩] [] (fun _ => true)
      = .ok { message := "Processing complete.",
              summary := some "Processed 1 registrants. Attended: 0. Not Attended: 1.",
              processed_count := 1, attended_count := 0,
              relayed := [⟨some "A", none, some "A@X.com", 0⟩],
              relayLogs := [.sent (some "A@X.com") 0] } ∧
    pyLower "A@X.com" = "a@x.com" ∧
    ("A@X.com" : String) ≠ "a@x.com" :=
  ⟨rfl, by decide, by decide⟩

/-- C2 (amended): `attended_count + not_attended_count = len(R)` exactly
(the summary's not-attended figure is `processed - attended`), and every
output email equals the corresponding input registrant's email verbatim —
original casing, not lowercased — with no duplication, no loss, and order
preserved. -/
theorem C2_summary_counts (registrants : List RegRecord)
    (participants : List PartRecord) (deliver : Nat → Bool)
    (hr : ∀ r ∈ registrants, r.email ≠ none)
    (hp : ∀ p ∈ participants, p.user_email ≠ none) :
    ∃ out, process_webinar_attendees registrants participants deliver = .ok out ∧
      out.attended_count + (out.processed_count - out.attended_count)
        = registrants.length ∧
      out.processed_count = registrants.length ∧
      out.attended_count ≤ out.processed_count ∧
      out.relayed.map (fun c => c.email) = registrants.map (fun r => r.email) := by
  by_cases hne : registrants = []
  · subst hne
    exact ⟨_, rfl, rfl, rfl, Nat.le_refl 0, rfl⟩
  · have hle := countAttended_le (lowerEmails participants) registrants
    refine ⟨_, process_ok registrants participants deliver hne hr hp, ?_, rfl, ?_, ?_⟩
    · show countAttended (lowerEmails participants) registrants +
        (registrants.length - countAttended (lowerEmails participants) registrants)
        = registrants.length
      omega
    · exact hle
    · show (registrants.map (classify (lowerEmails participants))).map _ = _
      rw [List.map_map]; rfl

/-- C2 witness: counts and output emails at a concrete two-registrant,
one-participant run. -/
theorem C2_summary_counts_witness :
    ∃ out, process_webinar_attendees
        [⟨some "p@x.com", some "P", none⟩, ⟨some "Q@X.com", some "Q", none⟩]
        [⟨some "q@x.com"⟩] (fun _ => false) = .ok out ∧
      out.attended_count + (out.processed_count - out.attended_count) = 2 ∧
      out.processed_count = 2 ∧
      out.attended_count ≤ out.processed_count ∧
      out.relayed.map (fun c => c.email) =
        ([⟨some "p@x.com", some "P", none⟩,
          ⟨some "Q@X.com", some "Q", none⟩] : List RegRecord).map
          (fun r => r.email) :=
  C2_summary_counts _ _ _ (by decide) (by decide)

/-- C3 counterexample: a participant record without `user_email` is not
skipped — `p["user_email"]` (src/main.py:224) raises `KeyError` and the
whole batch aborts, so the remaining records are never processed. -/
theorem C3_missing_identity_counterexample :
    process_webinar_attendees [⟨some "a@x.com", some "A", none⟩] [⟨none⟩]
      (fun _ => true) = .error ⟨"user_email"⟩ := rfl

/-- C3 (amended): a registrant or participant record lacking its identity
field makes the run raise `KeyError` and abort the whole batch; no record
is skipped and no warning-and-continue path exists. -/
theorem C3_missing_identity_aborts :
    (∀ (registrants : List RegRecord) (participants : List PartRecord)
        (deliver : Nat → Bool), registrants ≠ [] →
        (∃ p ∈ participants, p.user_email = none) →
        ∃ k, process_webinar_attendees registrants participants deliver
          = .error k) ∧
    (∀ (registrants : List RegRecord) (participants : List PartRecord)
        (deliver : Nat → Bool),
        (∀ p ∈ participants, p.user_email ≠ none) →
        (∃ r ∈ registrants, r.email = none) →
        ∃ k, process_webinar_attendees registrants participants deliver
          = .error k) := by
  constructor
  · intro regs parts deliver hne hex
    obtain ⟨k, hk⟩ := participant_email_set_err parts hex
    exact ⟨k, by simp [process_webinar_attendees, if_neg hne, hk]⟩
  · intro regs parts deliver hp hex
    have hne : regs ≠ [] := by
      obtain ⟨r, hm, _⟩ := hex
      intro h; subst h; exact absurd hm (List.not_mem_nil r)
    obtain ⟨k, hk⟩ := processLoop_err (lowerEmails parts) deliver regs 0 hex
    exact ⟨k, by simp [process_webinar_attendees, if_neg hne,
      participant_email_set_ok parts hp, hk]⟩

/-- C3 witness: a concrete roster with one identity-less participant makes
the run abort. -/
theorem C3_missing_identity_aborts_witness :
    ∃ k, process_webinar_attendees [⟨some "c@x.com", none, none⟩]
      [⟨some "d@x.com"⟩, ⟨none⟩] (fun _ => false) = .error k :=
  C3_missing_identity_aborts.1 _ _ _ (by decide) ⟨⟨none⟩, by decide, rfl⟩

/-- C6: the delivery outcomes of individual relay calls never abort the run
or change what is relayed: for any two outcome oracles `f` and `g` (e.g.
failure at item k versus all-success), the run completes, every one of the
`n` reconciled people is attempted in order, and the summary's processed
count is `n` regardless of outcomes. -/
theorem C6_relay_failure_isolated (registrants : List RegRecord)
    (participants : List PartRecord) (f g : Nat → Bool)
    (hr : ∀ r ∈ registrants, r.email ≠ none)
    (hp : ∀ p ∈ participants, p.user_email ≠ none) :
    ∃ out out',
      process_webinar_attendees registrants participants f = .ok out ∧
      process_webinar_attendees registrants participants g = .ok out' ∧
      out.relayed.length = registrants.length ∧
      out.processed_count = registrants.length ∧
      out.relayed = out'.relayed ∧
      out.processed_count = out'.processed_count ∧
      out.summary = out'.summary := by
  by_cases hne : registrants = []
  · subst hne
    exact ⟨_, _, rfl, rfl, rfl, rfl, rfl, rfl, rfl⟩
  · refine ⟨_, _, process_ok registrants participants f hne hr hp,
      process_ok registrants participants g hne hr hp, ?_, rfl, rfl, rfl, rfl⟩
    show (registrants.map (classify (lowerEmails participants))).length = _
    rw [List.length_map]

/-- C6 witness: delivery fails on item 0 under `f` but both items are still
relayed and the counts match the all-success run. -/
theorem C6_relay_failure_isolated_witness :
    ∃ out out',
      process_webinar_attendees
        [⟨some "w@x.com", some "W", none⟩, ⟨some "v@x.com", none, none⟩]
        [⟨some "W@X.com"⟩] (fun i => i != 0) = .ok out ∧
      process_webinar_attendees
        [⟨some "w@x.com", some "W", none⟩, ⟨some "v@x.com", none, none⟩]
        [⟨some "W@X.com"⟩] (fun _ => true) = .ok out' ∧
      out.relayed.length =
        ([⟨some "w@x.com", some "W", none⟩,
          ⟨some "v@x.com", none, none⟩] : List RegRecord).length ∧
      out.processed_count =
        ([⟨some "w@x.com", some "W", none⟩,
          ⟨some "v@x.com", none, none⟩] : List RegRecord).length ∧
      out.relayed = out'.relayed ∧
      out.processed_count = out'.processed_count ∧
      out.summary = out'.summary :=
  C6_relay_failure_isolated _ _ _ _ (by decide) (by decide)

/-- C7 counterexample: the empty-roster short-circuit (src/main.py:220)
returns only the nothing-to-process message — the response has no summary
field at all, so no summary reports a zero processed count. -/
theorem C7_no_summary_counterexample :
    process_webinar_attendees [] [⟨some "a@x.com"⟩] (fun _ => true)
      = .ok { message := "No registrants found. Nothing to process.",
              summary := none, processed_count := 0, attended_count := 0,
              relayed := [], relayLogs := [] } ∧
    (none : Option String) ≠
      some "Processed 0 registrants. Attended: 0. Not Attended: 0." :=
  ⟨rfl, by decide⟩

/-- C7 (amended): an empty registrant roster short-circuits with the
"nothing to process" message, makes zero relay calls and processes zero
registrants, but the returned body carries no summary field. -/
theorem C7_empty_roster_short_circuit (participants : List PartRecord)
    (deliver : Nat → Bool) :
    process_webinar_attendees [] participants deliver
      = .ok { message := "No registrants found. Nothing to process.",
              summary := none, processed_count := 0, attended_count := 0,
              relayed := [], relayLogs := [] } := rfl

/-- A page whose continuation cursor is truthy in Python (present and
non-empty), so the drain loop continues after it. -/
def contPage {α : Type} (p : Page α) : Bool :=
  match p.next_page_token with
  | some t => t != ""
  | none => false

/-- A page script in which every page but the last carries a truthy
continuation cursor and the last page omits it. -/
def goodPages {α : Type} : List (Page α) → Bool
  | [] => false
  | [p] => p.next_page_token.isNone
  | p :: rest => contPage p && goodPages rest

/-- Every page of the script carries a truthy continuation cursor. -/
def allCont {α : Type} : List (Page α) → Bool
  | [] => true
  | p :: rest => contPage p && allCont rest

lemma fetchLoop_cons_success {α : Type} (endpoint auth data_key : String)
    (tok : Option String) (p : Page α) (rest : List (FetchResponse α)) :
    fetchLoop endpoint auth data_key tok (.success p :: rest) =
      match p.next_page_token with
      | none => (.ok (p.records.getD []), [⟨endpoint, auth, 300, tok⟩])
      | some t =>
        if t = "" then (.ok (p.records.getD []), [⟨endpoint, auth, 300, tok⟩])
        else
          match fetchLoop endpoint auth data_key (some t) rest with
          | (.ok more, reqs) =>
            (.ok (p.records.getD [] ++ more), ⟨endpoint, auth, 300, tok⟩ :: reqs)
          | (.fetchError e k, reqs) =>
            (.fetchError e k, ⟨endpoint, auth, 300, tok⟩ :: reqs)
          | (.outOfScript, reqs) =>
            (.outOfScript, ⟨endpoint, auth, 300, tok⟩ :: reqs) := rfl

lemma fetchLoop_good {α : Type} (endpoint auth data_key : String) :
    ∀ (pages : List (Page α)) (tok : Option String), goodPages pages = true →
      fetchLoop endpoint auth data_key tok (pages.map .success) =
        (.ok (pages.map (fun p => p.records.getD [])).flatten,
         ⟨endpoint, auth, 300, tok⟩ ::
           pages.dropLast.map (fun p => ⟨endpoint, auth, 300, p.next_page_token⟩))
  | [], tok, h => by simp [goodPages] at h
  | [p], tok, h => by
    have hn : p.next_page_token = none := by
      simpa [goodPages, Option.isNone_iff_eq_none] using h
    simp [fetchLoop, hn]
  | p :: q :: rest, tok, h => by
    have hc : contPage p = true ∧ goodPages (q :: rest) = true := by
      simpa [goodPages] using h
    obtain ⟨t, hpt, hne⟩ : ∃ t, p.next_page_token = some t ∧ ¬(t = "") := by
      cases hpt : p.next_page_token with
      | none => rw [contPage, hpt] at hc; simp at hc
      | some t =>
        refine ⟨t, rfl, ?_⟩
        have := hc.1
        rw [contPage, hpt] at this
        simpa using this
    have ih := fetchLoop_good endpoint auth data_key (q :: rest) (some t) hc.2
    rw [List.map_cons, fetchLoop_cons_success]
    simp only [hpt]
    rw [if_neg hne, ih]
    simp [hpt, List.dropLast_cons₂, List.flatten_cons]

lemma fetchLoop_failure {α : Type} (endpoint auth data_key : String) :
    ∀ (okPages : List (Page α)) (rest : List (FetchResponse α))
      (tok : Option String), allCont okPages = true →
      (fetchLoop endpoint auth data_key tok
          (okPages.map .success ++ .failure :: rest)).1
        = .fetchError endpoint data_key
  | [], rest, tok, _ => by simp [fetchLoop]
  | p :: ps, rest, tok, h => by
    have hc : contPage p = true ∧ allCont ps = true := by
      simpa [allCont] using h
    obtain ⟨t, hpt, hne⟩ : ∃ t, p.next_page_token = some t ∧ ¬(t = "") := by
      cases hpt : p.next_page_token with
      | none => rw [contPage, hpt] at hc; simp at hc
      | some t =>
        refine ⟨t, rfl, ?_⟩
        have := hc.1
        rw [contPage, hpt] at this
        simpa using this
    have ih := fetchLoop_failure endpoint auth data_key ps rest (some t) hc.2
    rcases hfl : fetchLoop endpoint auth data_key (some t)
        (ps.map .success ++ .failure :: rest) with ⟨o, reqs⟩
    rw [hfl] at ih
    simp only at ih
    subst ih
    rw [List.map_cons, List.cons_append, fetchLoop_cons_success]
    simp only [hpt]
    rw [if_neg hne, hfl]

/-- C4: for a script of N pages in which every page but the last carries a
continuation cursor and the last omits it, the drain returns the
concatenation of every page's named array field in page order, issues
exactly N requests, each with page_size 300 against the same endpoint, the
first without a cursor and each later one carrying the previous response's
cursor; N is arbitrary (no upper bound on page count). -/
theorem C4_pagination_drain {α : Type} (endpoint auth data_key : String)
    (pages : List (Page α)) (h : goodPages pages = true) :
    _fetch_all_from_zoom endpoint auth data_key (pages.map .success) =
      (.ok (pages.map (fun p => p.records.getD [])).flatten,
       ⟨endpoint, auth, 300, none⟩ ::
         pages.dropLast.map (fun p => ⟨endpoint, auth, 300, p.next_page_token⟩)) ∧
    (⟨endpoint, auth, 300, none⟩ ::
       pages.dropLast.map (fun p =>
         (⟨endpoint, auth, 300, p.next_page_token⟩ : IssuedRequest))).length
      = pages.length ∧
    ∀ req ∈ (⟨endpoint, auth, 300, none⟩ ::
        pages.dropLast.map (fun p =>
          (⟨endpoint, auth, 300, p.next_page_token⟩ : IssuedRequest))),
      req.page_size = 300 ∧ req.endpoint = endpoint := by
  have hne : pages ≠ [] := by
    intro hnil; subst hnil; simp [goodPages] at h
  refine ⟨fetchLoop_good endpoint auth data_key pages none h, ?_, ?_⟩
  · have hlen := List.length_dropLast pages
    have hpos : 1 ≤ pages.length := List.length_pos.mpr hne
    simp only [List.length_cons, List.length_map]
    omega
  · intro req hreq
    rcases List.mem_cons.mp hreq with hh | hh
    · subst hh; exact ⟨rfl, rfl⟩
    · obtain ⟨p, _, rfl⟩ := List.mem_map.mp hh
      exact ⟨rfl, rfl⟩

/-- Concrete three-page script used to witness the drain. -/
def c4Pages : List (Page Nat) :=
  [⟨some [1, 2], some "t1"⟩, ⟨some [], some "t2"⟩, ⟨some [3, 4], none⟩]

/-- C4 witness: a concrete three-page drain. -/
theorem C4_pagination_drain_witness :
    _fetch_all_from_zoom "ep" "Bearer tok" "registrants"
        (c4Pages.map FetchResponse.success) =
      (.ok ((c4Pages.map (fun p => p.records.getD [])).flatten),
       ⟨"ep", "Bearer tok", 300, none⟩ ::
         c4Pages.dropLast.map
           (fun p => ⟨"ep", "Bearer tok", 300, p.next_page_token⟩)) ∧
    ((⟨"ep", "Bearer tok", 300, none⟩ : IssuedRequest) ::
       c4Pages.dropLast.map
         (fun p => (⟨"ep", "Bearer tok", 300, p.next_page_token⟩ : IssuedRequest))).length
      = c4Pages.length ∧
    ∀ req ∈ ((⟨"ep", "Bearer tok", 300, none⟩ : IssuedRequest) ::
        c4Pages.dropLast.map
          (fun p => (⟨"ep", "Bearer tok", 300, p.next_page_token⟩ : IssuedRequest))),
      req.page_size = 300 ∧ req.endpoint = "ep" :=
  C4_pagination_drain "ep" "Bearer tok" "registrants" c4Pages (by decide)

/-- C5: if the drain reaches a page request that fails (transport error or
non-2xx), the whole drain fails with the 502-mapped error that carries the
endpoint (in the logged message) and the result key (in the exception
detail), and the pages already fetched are discarded — the outcome is never
an `ok` with partial results. -/
theorem C5_drain_abort {α : Type} (endpoint auth data_key : String)
    (okPages : List (Page α)) (rest : List (FetchResponse α))
    (h : allCont okPages = true) :
    (_fetch_all_from_zoom endpoint auth data_key
        (okPages.map .success ++ .failure :: rest)).1
      = .fetchError endpoint data_key ∧
    ∀ results, (_fetch_all_from_zoom endpoint auth data_key
        (okPages.map .success ++ .failure :: rest)).1 ≠ .ok results := by
  have hmain : (_fetch_all_from_zoom endpoint auth data_key
      (okPages.map .success ++ .failure :: rest)).1
      = .fetchError endpoint data_key :=
    fetchLoop_failure endpoint auth data_key okPages rest none h
  refine ⟨hmain, fun results hcontra => ?_⟩
  rw [hmain] at hcontra
  exact DrainOutcome.noConfusion hcontra

/-- Concrete two-good-pages-then-failure script used to witness the abort. -/
def c5Pages : List (Page Nat) :=
  [⟨some [7], some "a"⟩, ⟨some [8], some "b"⟩]

/-- C5 witness: two successfully fetched pages are discarded when the third
request fails. -/
theorem C5_drain_abort_witness :
    (_fetch_all_from_zoom "ep" "Bearer tok" "participants"
        (c5Pages.map FetchResponse.success ++ FetchResponse.failure :: [])).1
      = .fetchError "ep" "participants" ∧
    ∀ results, (_fetch_all_from_zoom "ep" "Bearer tok" "participants"
        (c5Pages.map FetchResponse.success ++ FetchResponse.failure :: [])).1
      ≠ .ok results :=
  C5_drain_abort "ep" "Bearer tok" "participants" c5Pages [] (by decide)

/-- C9: a page whose body lacks the named result key contributes zero
records — the drain behaves exactly as if the page carried an empty array,
following its cursor or terminating normally rather than failing. -/
theorem C9_missing_result_key {α : Type} (endpoint auth data_key : String)
    (p : Page α) (tok : Option String) (rest : List (FetchResponse α))
    (h : p.records = none) :
    fetchLoop endpoint auth data_key tok (.success p :: rest) =
      fetchLoop endpoint auth data_key tok
        (.success ⟨some [], p.next_page_token⟩ :: rest) := by
  obtain ⟨rec, npt⟩ := p
  cases h
  rfl

/-- C9 witness: a cursor-bearing page without the result key contributes
nothing and the drain continues to the next page. -/
theorem C9_missing_result_key_witness :
    fetchLoop "ep" "Bearer tok" "registrants" none
        ([.success ⟨none, some "t"⟩, .success ⟨some [5], none⟩] :
          List (FetchResponse Nat)) =
      fetchLoop "ep" "Bearer tok" "registrants" none
        ([.success ⟨some [], some "t"⟩, .success ⟨some [5], none⟩] :
          List (FetchResponse Nat)) :=
  C9_missing_result_key "ep" "Bearer tok" "registrants" ⟨none, some "t"⟩ none
    [.success ⟨some [5], none⟩] rfl

/-- Body and status of the Zoom registrant-creation response; the success
fields are read with `.get`, the raw body text is logged on error. -/
structure ZoomRegResponse where
  status : Nat
  registrant_id : Option String
  join_url : Option String
  id : Option String
  text : String
deriving DecidableEq

/-- What the `/register` endpoint returns: the success JSON body, an
`HTTPException`, or the final fallback message. -/
inductive RegisterResult where
  | success (message : String) (registrant_id join_url webinar_id : Option String)
  | httpError (e : HTTPError)
  | fallback (message : String)
deriving DecidableEq

/-- Python truthiness of the token: `not access_token` is true for `None`
and for the empty string. -/
def tokenFalsy : Option String → Bool
  | none => true
  | some t => t == ""

/-- `register_for_webinar` (src/main.py:142-199): acquire a token (falsy
token → 500); then one registration POST.  201 is the only success and
returns the registrant id and join URL; 409 raises a dedicated conflict
error; any other 4xx/5xx trips `raise_for_status`, is caught as a
`RequestException` and surfaces a generic 502 detail (the upstream status
and body are only logged); a 2xx/3xx other than 201 falls through to the
fallback message. -/
def register_for_webinar (tokenRes : TransportResult TokenHttpResponse)
    (zoomRes : TransportResult ZoomRegResponse) : RegisterResult :=
  match get_zoom_access_token tokenRes with
  | .error e => .httpError e
  | .ok token =>
    if tokenFalsy token then
      .httpError ⟨500, "Failed to get Zoom access token."⟩
    else
      match zoomRes with
      | .exn =>
        .httpError ⟨502, "An error occurred while communicating with the Zoom API."⟩
      | .ok resp =>
        if resp.status = 201 then
          .success "Contact successfully registered for the webinar."
            resp.registrant_id resp.join_url resp.id
        else if resp.status = 409 then
          .httpError ⟨409, "This email address has already been registered for the webinar."⟩
        else if raiseForStatusFails resp.status then
          .httpError ⟨502, "An error occurred while communicating with the Zoom API."⟩
        else
          .fallback "An unexpected error occurred."

/-- C8 counterexample: two non-conflict upstream failures with different
upstream bodies surface the identical generic 502 detail — the upstream
error details are logged but not surfaced verbatim. -/
theorem C8_generic_error_counterexample :
    register_for_webinar (.ok ⟨200, some "tok"⟩)
        (.ok ⟨500, none, none, none, "upstream error body A"⟩)
      = .httpError ⟨502, "An error occurred while communicating with the Zoom API."⟩ ∧
    register_for_webinar (.ok ⟨200, some "tok"⟩)
        (.ok ⟨500, none, none, none, "upstream error body B"⟩)
      = .httpError ⟨502, "An error occurred while communicating with the Zoom API."⟩ ∧
    ("upstream error body A" : String) ≠ "upstream error body B" :=
  ⟨rfl, rfl, by decide⟩

/-- C8 (amended): with a valid token, 201 is the only success status and
returns the registrant id and join URL; 409 is surfaced distinctly as the
already-registered conflict; every other 4xx/5xx is surfaced as the generic
502 communication error (upstream details only logged, not surfaced). -/
theorem C8_status_dispatch (tokenRes : TransportResult TokenHttpResponse)
    (t : String) (htok : get_zoom_access_token tokenRes = .ok (some t))
    (hts : t ≠ "") (zoomRes : ZoomRegResponse) :
    (zoomRes.status = 201 →
      register_for_webinar tokenRes (.ok zoomRes)
        = .success "Contact successfully registered for the webinar."
            zoomRes.registrant_id zoomRes.join_url zoomRes.id) ∧
    (zoomRes.status = 409 →
      register_for_webinar tokenRes (.ok zoomRes)
        = .httpError ⟨409, "This email address has already been registered for the webinar."⟩) ∧
    (400 ≤ zoomRes.status → zoomRes.status < 600 → zoomRes.status ≠ 409 →
      register_for_webinar tokenRes (.ok zoomRes)
        = .httpError ⟨502, "An error occurred while communicating with the Zoom API."⟩) ∧
    (∀ m a b c, register_for_webinar tokenRes (.ok zoomRes) = .success m a b c →
      zoomRes.status = 201) := by
  have hbase : register_for_webinar tokenRes (.ok zoomRes)
      = (if zoomRes.status = 201 then
           RegisterResult.success "Contact successfully registered for the webinar."
             zoomRes.registrant_id zoomRes.join_url zoomRes.id
         else if zoomRes.status = 409 then
           .httpError ⟨409, "This email address has already been registered for the webinar."⟩
         else if raiseForStatusFails zoomRes.status then
           .httpError ⟨502, "An error occurred while communicating with the Zoom API."⟩
         else .fallback "An unexpected error occurred.") := by
    simp [register_for_webinar, htok, tokenFalsy, hts]
  refine ⟨?_, ?_, ?_, ?_⟩
  · intro h201
    rw [hbase, if_pos h201]
  · intro h409
    have h201 : zoomRes.status ≠ 201 := by omega
    rw [hbase, if_neg h201, if_pos h409]
  · intro h400 h600 h409
    have h201 : zoomRes.status ≠ 201 := by omega
    have hrf : raiseForStatusFails zoomRes.status = true := by
      simp [raiseForStatusFails]; omega
    rw [hbase, if_neg h201, if_neg h409, if_pos (by simp [hrf])]
  · intro m a b c heq
    by_contra h201
    rw [hbase, if_neg h201] at heq
    by_cases h409 : zoomRes.status = 409
    · rw [if_pos h409] at heq
      simp at heq
    · rw [if_neg h409] at heq
      by_cases hrf : raiseForStatusFails zoomRes.status = true
      · rw [if_pos (by simp [hrf])] at heq
        simp at heq
      · rw [if_neg (by simp [Bool.not_eq_true] at hrf; simp [hrf])] at heq
        simp at heq

/-- C8 witness: a 201 response succeeds with its registrant id and join URL,
and only a 201 can produce a success. -/
theorem C8_status_dispatch_witness :
    (((⟨201, some "rid", some "ju", some "wid", "created"⟩ : ZoomRegResponse).status = 201 →
      register_for_webinar (.ok ⟨200, some "tok"⟩)
          (.ok ⟨201, some "rid", some "ju", some "wid", "created"⟩)
        = .success "Contact successfully registered for the webinar."
            (some "rid") (some "ju") (some "wid")) ∧
    ((⟨201, some "rid", some "ju", some "wid", "created"⟩ : ZoomRegResponse).status = 409 →
      register_for_webinar (.ok ⟨200, some "tok"⟩)
          (.ok ⟨201, some "rid", some "ju", some "wid", "created"⟩)
        = .httpError ⟨409, "This email address has already been registered for the webinar."⟩) ∧
    (400 ≤ (⟨201, some "rid", some "ju", some "wid", "created"⟩ : ZoomRegResponse).status →
      (⟨201, some "rid", some "ju", some "wid", "created"⟩ : ZoomRegResponse).status < 600 →
      (⟨201, some "rid", some "ju", some "wid", "created"⟩ : ZoomRegResponse).status ≠ 409 →
      register_for_webinar (.ok ⟨200, some "tok"⟩)
          (.ok ⟨201, some "rid", some "ju", some "wid", "created"⟩)
        = .httpError ⟨502, "An error occurred while communicating with the Zoom API."⟩) ∧
    (∀ m a b c, register_for_webinar (.ok ⟨200, some "tok"⟩)
          (.ok ⟨201, some "rid", some "ju", some "wid", "created"⟩) = .success m a b c →
      (⟨201, some "rid", some "ju", some "wid", "created"⟩ : ZoomRegResponse).status = 201)) :=
  C8_status_dispatch (.ok ⟨200, some "tok"⟩) "tok" rfl (by decide)
    ⟨201, some "rid", some "ju", some "wid", "created"⟩

lemma fetchLoop_head {α : Type} (endpoint auth data_key : String)
    (tok : Option String) (script : List (FetchResponse α)) :
    (fetchLoop endpoint auth data_key tok script).2.head?
      = some ⟨endpoint, auth, 300, tok⟩ := by
  cases script with
  | nil => rfl
  | cons r rest =>
    cases r with
    | failure => rfl
    | success page =>
      rw [fetchLoop_cons_success]
      cases hpt : page.next_page_token with
      | none => rfl
      | some t =>
        by_cases ht : t = ""
        · simp [ht]
        · rcases hfl : fetchLoop endpoint auth data_key (some t) rest with ⟨o, reqs⟩
          cases o <;> simp [ht, hfl]

/-- C10: a 2xx token-exchange response whose body lacks `access_token`
yields `.ok none` (no `AuthError`), and the attendee pipeline proceeds to
issue the registrants fetch with the literal header `Bearer None` instead
of aborting. -/
theorem C10_absent_token_proceeds (webinar_id : String)
    (regScript : List (FetchResponse RegRecord))
    (partScript : List (FetchResponse PartRecord)) (deliver : Nat → Bool) :
    get_zoom_access_token (.ok ⟨200, none⟩) = .ok none ∧
    (process_attendees_endpoint webinar_id (.ok ⟨200, none⟩)
        regScript partScript deliver).2.head?
      = some ⟨registrantsUrl webinar_id, "Bearer None", 300, none⟩ := by
  refine ⟨rfl, ?_⟩
  rcases h1 : get_all_webinar_registrants webinar_id none regScript with ⟨o1, reqs1⟩
  have hh : reqs1.head? = some ⟨registrantsUrl webinar_id, "Bearer None", 300, none⟩ := by
    have hfl := fetchLoop_head (registrantsUrl webinar_id) (bearerHeader none)
      "registrants" none regScript
    rw [get_all_webinar_registrants, _fetch_all_from_zoom] at h1
    rw [h1] at hfl
    exact hfl
  have hne1 : reqs1 ≠ [] := by
    intro hnil; rw [hnil] at hh; simp at hh
  have htok : get_zoom_access_token (.ok ⟨200, none⟩) = .ok none := rfl
  simp only [process_attendees_endpoint, htok, h1]
  cases o1 with
  | fetchError e k => exact hh
  | outOfScript => exact hh
  | ok registrants =>
    rcases h2 : get_all_webinar_participants webinar_id none partScript with ⟨o2, reqs2⟩
    cases o2 with
    | fetchError e k => simp [List.head?_append, hh]
    | outOfScript => simp [List.head?_append, hh]
    | ok participants =>
      cases hpr : process_webinar_attendees registrants participants deliver with
      | error k => simp [hpr, List.head?_append, hh]
      | ok out => simp [hpr, List.head?_append, hh]
